import Mathlib

/-!
Shallow embedding of the Cradle Back-End REST API client
(src/cradle-client-ts/cradle-api-client.ts).

The client is a thin typed HTTP layer: a Transport Adapter
(`CradleApiClient.request`) that normalizes transport failures into a
uniform envelope, and an Endpoint Surface of typed methods that build
paths, query strings and tagged mutation bodies and delegate to the
adapter.  We embed the adapter as a pure function from an abstract
transport outcome (what the underlying axios call produced) to the
returned envelope, and each endpoint method as a function from an
abstract transport oracle to the (envelope, list of issued calls) pair,
so that "issues exactly one request" and "returns the envelope
untouched" are provable statements.

TypeScript optional fields become `Option`; the TS truthiness tests the
code performs on strings (`if (filters?.wallet) ...`) are embedded as
"is `some` of a non-empty string".  TS `number` becomes `Int`.
-/

/-- HTTP methods used by the client: `request` only accepts GET and POST. -/
inductive HttpMethod where
  | GET
  | POST
deriving DecidableEq, Repr

/-- Envelope shape `ApiResponse<T>` from the source: `success: boolean`,
`data: T | null`, `error: string | null`.  `null`/absent is `none`. -/
structure ApiResponse (T : Type) where
  success : Bool
  data : Option T
  error : Option String
deriving DecidableEq, Repr

/-- Health check response body `HealthResponse`: `status` and `timestamp`. -/
structure HealthResponse where
  status : String
  timestamp : String
deriving DecidableEq, Repr

/-- The error value caught by the `catch` block of `CradleApiClient.request`.
An axios error optionally carries `error.response.data` (the parsed body,
`none` when there is no usable response body) and `error.message`
(the empty string standing for a falsy/absent message); a non-axios
`Error` carries its message; anything else is `unknownThrown`. -/
inductive CaughtError (T : Type) where
  | axiosErr (responseData : Option (ApiResponse T)) (message : String)
  | jsErr (message : String)
  | unknownThrown
deriving DecidableEq, Repr

/-- Outcome of the underlying `axiosInstance.request` call inside
`CradleApiClient.request`: either it resolved with a parsed body
(`ok`), or it threw and the `catch` block received a `CaughtError`. -/
inductive TransportOutcome (T : Type) where
  | ok (body : ApiResponse T)
  | caught (e : CaughtError T)
deriving DecidableEq, Repr

/-- The `catch` block of `CradleApiClient.request` (source lines 690-719):
an axios error with usable `error.response.data` is returned verbatim;
an axios error without one yields `error.message || 'Request failed'`;
a plain `Error` yields its message; anything else yields
`'Unknown error occurred'`.  All synthesized envelopes have
`success = false` and `data = null`. -/
def handleCaught {T : Type} (e : CaughtError T) : ApiResponse T :=
  match e with
  | .axiosErr (some d) _ => d
  | .axiosErr none message =>
      { success := false, data := none,
        error := some (if message = "" then "Request failed" else message) }
  | .jsErr message => { success := false, data := none, error := some message }
  | .unknownThrown => { success := false, data := none, error := some "Unknown error occurred" }

/-- One HTTP call issued through the adapter: method, url path (with query
string), and optional JSON body.  The only bodies the claims concern are
mutation actions, modelled below; read endpoints pass `none`. -/
structure CallRecord (B : Type) where
  method : HttpMethod
  path : String
  body : Option B
deriving DecidableEq, Repr

/-- Embedding of `CradleApiClient.request` (source lines 667-720).  The
transport oracle `tr` stands for the configured axios instance: given the
call, it says what the HTTP layer did.  The result pairs the returned
envelope with the list of calls issued (always exactly the one call:
the method performs no retry). -/
def request {B T : Type} (tr : CallRecord B → TransportOutcome T)
    (c : CallRecord B) : ApiResponse T × List (CallRecord B) :=
  (match tr c with
   | .ok body => body
   | .caught e => handleCaught e, [c])

/-- Outcome of the raw `axios.get` performed by `health()`. -/
inductive HealthOutcome where
  | ok (body : HealthResponse)
  | failed
deriving DecidableEq, Repr

/-- Embedding of `CradleApiClient.health` (source lines 729-736): on
success the `{status, timestamp}` body is returned directly; on any
failure the method throws `new Error('Health check failed')`, embedded
as `Except.error`. -/
def health (o : HealthOutcome) : Except String HealthResponse :=
  match o with
  | .ok body => .ok body
  | .failed => .error "Health check failed"

/-- The raw call `health()` performs: `axios.get` on the base URL plus
`/health`, through plain `axios` rather than the configured instance, so
no `Authorization` header is attached.  `hasAuthHeader` records whether
the call carries the bearer token. -/
structure RawCall where
  method : HttpMethod
  url : String
  hasAuthHeader : Bool
deriving DecidableEq, Repr

/-- The request descriptor of `health()`: unauthenticated GET on
`<baseUrl>/health`. -/
def healthCall (baseUrl : String) : RawCall :=
  { method := .GET, url := baseUrl ++ "/health", hasAuthHeader := false }

/-- Client configuration `CradleApiConfig`: optional `baseUrl`, required
`apiKey`, optional `timeout` (milliseconds, TS `number` as `Int`). -/
structure CradleApiConfig where
  baseUrl : Option String
  apiKey : String
  timeout : Option Int
deriving DecidableEq, Repr

/-- The constructor line `config.baseUrl || 'http://localhost:3000'`
(source line 642): the default is substituted when `baseUrl` is absent
or falsy (the empty string). -/
def resolvedBaseUrl (config : CradleApiConfig) : String :=
  match config.baseUrl with
  | none => "http://localhost:3000"
  | some s => if s = "" then "http://localhost:3000" else s

/-- The constructor line `config.timeout || 30000` (source line 643): the
default is substituted when `timeout` is absent or falsy (zero). -/
def resolvedTimeout (config : CradleApiConfig) : Int :=
  match config.timeout with
  | none => 30000
  | some t => if t = 0 then 30000 else t

/-- Market type union: `'spot' | 'derivative' | 'futures'`. -/
inductive MarketType where
  | spot
  | derivative
  | futures
deriving DecidableEq, Repr

/-- Wire string of a `MarketType` literal. -/
def MarketType.wire : MarketType → String
  | .spot => "spot"
  | .derivative => "derivative"
  | .futures => "futures"

/-- Market status union: `'active' | 'inactive' | 'suspended'`. -/
inductive MarketStatus where
  | active
  | inactive
  | suspended
deriving DecidableEq, Repr

/-- Wire string of a `MarketStatus` literal. -/
def MarketStatus.wire : MarketStatus → String
  | .active => "active"
  | .inactive => "inactive"
  | .suspended => "suspended"

/-- Market regulation union: `'regulated' | 'unregulated'`. -/
inductive MarketRegulation where
  | regulated
  | unregulated
deriving DecidableEq, Repr

/-- Wire string of a `MarketRegulation` literal. -/
def MarketRegulation.wire : MarketRegulation → String
  | .regulated => "regulated"
  | .unregulated => "unregulated"

/-- Order status union: `'open' | 'closed' | 'cancelled'`. -/
inductive OrderStatus where
  | open
  | closed
  | cancelled
deriving DecidableEq, Repr

/-- Wire string of an `OrderStatus` literal. -/
def OrderStatus.wire : OrderStatus → String
  | .open => "open"
  | .closed => "closed"
  | .cancelled => "cancelled"

/-- Order type union: `'limit' | 'market'`. -/
inductive OrderType where
  | limit
  | market
deriving DecidableEq, Repr

/-- Wire string of an `OrderType` literal. -/
def OrderType.wire : OrderType → String
  | .limit => "limit"
  | .market => "market"

/-- Time series interval union. -/
inductive TimeSeriesInterval where
  | oneMin
  | fiveMin
  | fifteenMin
  | thirtyMin
  | oneHr
  | fourHr
  | oneDay
  | oneWeek
deriving DecidableEq, Repr

/-- Wire string of a `TimeSeriesInterval` literal. -/
def TimeSeriesInterval.wire : TimeSeriesInterval → String
  | .oneMin => "1min"
  | .fiveMin => "5min"
  | .fifteenMin => "15min"
  | .thirtyMin => "30min"
  | .oneHr => "1hr"
  | .fourHr => "4hr"
  | .oneDay => "1day"
  | .oneWeek => "1week"

/-- `MarketFilters`: all fields optional. -/
structure MarketFilters where
  market_type : Option MarketType := none
  status : Option MarketStatus := none
  regulation : Option MarketRegulation := none
deriving DecidableEq, Repr

/-- `OrderFilters`: all fields optional. -/
structure OrderFilters where
  wallet : Option String := none
  market_id : Option String := none
  status : Option OrderStatus := none
  order_type : Option OrderType := none
  from_date : Option String := none
  to_date : Option String := none
deriving DecidableEq, Repr

/-- `TimeSeriesFilters`: all fields optional. -/
structure TimeSeriesFilters where
  market_id : Option String := none
  asset : Option String := none
  interval : Option TimeSeriesInterval := none
  start_time : Option String := none
  end_time : Option String := none
  data_provider : Option String := none
deriving DecidableEq, Repr

/-- Uppercase hexadecimal digit for a value below 16, as used by the
percent-encoding of `URLSearchParams.toString()`. -/
def hexUpper (n : Nat) : Char :=
  if n < 10 then Char.ofNat (48 + n) else Char.ofNat (55 + n)

/-- Percent-encoding of one byte: `%XX` with uppercase hex. -/
def percentByte (b : Nat) : String :=
  "%" ++ String.singleton (hexUpper (b / 16)) ++ String.singleton (hexUpper (b % 16))

/-- Bytes left verbatim by the `application/x-www-form-urlencoded`
serializer: ASCII alphanumerics and `* - . _`. -/
def formUnreserved (b : Nat) : Bool :=
  (48 ≤ b && b ≤ 57) || (65 ≤ b && b ≤ 90) || (97 ≤ b && b ≤ 122) ||
    b = 42 || b = 45 || b = 46 || b = 95

/-- Serialization of one byte under the urlencoded serializer: unreserved
bytes verbatim, space as `+`, everything else percent-encoded. -/
def encodeByte (b : Nat) : String :=
  if formUnreserved b then String.singleton (Char.ofNat b)
  else if b = 32 then "+" else percentByte b

/-- UTF-8 encoding of one code point as its byte values. -/
def utf8Bytes (c : Char) : List Nat :=
  let n := c.toNat
  if n < 128 then [n]
  else if n < 2048 then [192 + n / 64, 128 + n % 64]
  else if n < 65536 then [224 + n / 4096, 128 + (n / 64) % 64, 128 + n % 64]
  else [240 + n / 262144, 128 + (n / 4096) % 64, 128 + (n / 64) % 64, 128 + n % 64]

/-- `application/x-www-form-urlencoded` encoding of a string, as
`URLSearchParams.toString()` applies to each name and value. -/
def urlencode (s : String) : String :=
  String.join (s.data.map (fun c => String.join ((utf8Bytes c).map encodeByte)))

/-- Join a list of serialized pairs with `&`, as
`URLSearchParams.toString()` does. -/
def joinAmp : List String → String
  | [] => ""
  | [x] => x
  | x :: y :: rest => x ++ "&" ++ joinAmp (y :: rest)

/-- Serialization of an ordered name/value list, mirroring
`URLSearchParams.toString()`: pairs in append order, each as
`encode(name)=encode(value)`, joined by `&`. -/
def queryString (ps : List (String × String)) : String :=
  joinAmp (ps.map (fun p => urlencode p.1 ++ "=" ++ urlencode p.2))

/-- One conditional `params.append(key, value)` on an optional string
field: the TS guard `if (filters?.field)` appends only when the value is
present and truthy (a non-empty string). -/
def qparam (key : String) (v : Option String) : List (String × String) :=
  match v with
  | none => []
  | some s => if s = "" then [] else [(key, s)]

/-- The name/value pairs `getMarkets` appends (source lines 825-828), in
source order: `market_type`, `status`, `regulation`. -/
def marketsParams (filters : Option MarketFilters) : List (String × String) :=
  qparam "market_type" ((filters.bind MarketFilters.market_type).map MarketType.wire) ++
  qparam "status" ((filters.bind MarketFilters.status).map MarketStatus.wire) ++
  qparam "regulation" ((filters.bind MarketFilters.regulation).map MarketRegulation.wire)

/-- The path `getMarkets` requests (source lines 830-832). -/
def marketsPath (filters : Option MarketFilters) : String :=
  let query := queryString (marketsParams filters)
  if query = "" then "/markets" else "/markets?" ++ query

/-- The name/value pairs `getOrders` appends (source lines 851-856), in
source order: `wallet`, `market_id`, `status`, `order_type`,
`from_date`, `to_date`. -/
def ordersParams (filters : Option OrderFilters) : List (String × String) :=
  qparam "wallet" (filters.bind OrderFilters.wallet) ++
  qparam "market_id" (filters.bind OrderFilters.market_id) ++
  qparam "status" ((filters.bind OrderFilters.status).map OrderStatus.wire) ++
  qparam "order_type" ((filters.bind OrderFilters.order_type).map OrderType.wire) ++
  qparam "from_date" (filters.bind OrderFilters.from_date) ++
  qparam "to_date" (filters.bind OrderFilters.to_date)

/-- The path `getOrders` requests (source lines 858-860). -/
def ordersPath (filters : Option OrderFilters) : String :=
  let query := queryString (ordersParams filters)
  if query = "" then "/orders" else "/orders?" ++ query

/-- The name/value pairs `getTimeSeriesRecords` appends (source lines
880-885), in source order.  Note from the source: `market_id` is
appended under the name `market`; when `start_time` is truthy the pair
appended is `duration_sec` with the empty value; `end_time` is never
read. -/
def durationSegment (v : Option String) : List (String × String) :=
  match v with
  | none => []
  | some s => if s = "" then [] else [("duration_sec", "")]

/-- The name/value pairs `getTimeSeriesRecords` appends, assembled in
source order; `durationSegment` embeds the line
`if (filters?.start_time) params.append('duration_sec', '')`. -/
def timeSeriesParams (filters : Option TimeSeriesFilters) : List (String × String) :=
  qparam "market" (filters.bind TimeSeriesFilters.market_id) ++
  qparam "asset" (filters.bind TimeSeriesFilters.asset) ++
  qparam "interval" ((filters.bind TimeSeriesFilters.interval).map TimeSeriesInterval.wire) ++
  durationSegment (filters.bind TimeSeriesFilters.start_time) ++
  qparam "data_provider" (filters.bind TimeSeriesFilters.data_provider)

/-- The path `getTimeSeriesRecords` requests (source lines 887-888). -/
def timeSeriesPath (filters : Option TimeSeriesFilters) : String :=
  let query := queryString (timeSeriesParams filters)
  if query = "" then "/time-series" else "/time-series?" ++ query

/-- Cradle account type union: `'retail' | 'institutional'`. -/
inductive CradleAccountType where
  | retail
  | institutional
deriving DecidableEq, Repr

/-- Cradle account status union. -/
inductive CradleAccountStatus where
  | unverified
  | verified
  | suspended
  | closed
deriving DecidableEq, Repr

/-- Asset type union. -/
inductive AssetType where
  | bridged
  | native
  | yieldBreaking
  | chainNative
  | stablecoin
  | volatile
deriving DecidableEq, Repr

/-- Fill mode union. -/
inductive FillMode where
  | fillOrKill
  | immediateOrCancel
  | goodTillCancel
deriving DecidableEq, Repr

/-- Data provider type union. -/
inductive DataProviderType where
  | orderBook
  | exchange
  | aggregated
deriving DecidableEq, Repr

/-- Order fill status union. -/
inductive OrderFillStatus where
  | partialFill
  | filled
  | cancelled
deriving DecidableEq, Repr

/-- `CreateAccountInput`. -/
structure CreateAccountInput where
  linked_account_id : String
  account_type : CradleAccountType
deriving DecidableEq, Repr

/-- `UpdateAccountStatusInput`. -/
structure UpdateAccountStatusInput where
  account_id : String
  status : CradleAccountStatus
deriving DecidableEq, Repr

/-- `CreateWalletInput`. -/
structure CreateWalletInput where
  cradle_account_id : String
  address : String
  contract_id : String
deriving DecidableEq, Repr

/-- `CreateAssetInput`. -/
structure CreateAssetInput where
  asset_manager : String
  token : String
  asset_type : AssetType
  name : String
  symbol : String
  decimals : Int
  icon : String
deriving DecidableEq, Repr

/-- `CreateMarketInput`. -/
structure CreateMarketInput where
  name : String
  description : String
  icon : String
  asset_one : String
  asset_two : String
  market_type : MarketType
  market_status : MarketStatus
  market_regulation : MarketRegulation
deriving DecidableEq, Repr

/-- `UpdateMarketStatusInput`. -/
structure UpdateMarketStatusInput where
  market_id : String
  status : MarketStatus
deriving DecidableEq, Repr

/-- `PlaceOrderInput`. -/
structure PlaceOrderInput where
  wallet : String
  market_id : String
  bid_asset : String
  ask_asset : String
  bid_amount : String
  ask_amount : String
  price : String
  mode : FillMode
  order_type : OrderType
deriving DecidableEq, Repr

/-- `PlaceOrderResult`. -/
structure PlaceOrderResult where
  id : String
  status : OrderFillStatus
  bid_amount_filled : String
  ask_amount_filled : String
  matched_trades : List String
deriving DecidableEq, Repr

/-- `AddTimeSeriesRecordInput`. -/
structure AddTimeSeriesRecordInput where
  market_id : String
  asset : String
  openPrice : String
  high : String
  low : String
  close : String
  volume : String
  start_time : String
  end_time : String
  interval : TimeSeriesInterval
  data_provider_type : DataProviderType
  data_provider : String
deriving DecidableEq, Repr

/-- `CreateLendingPoolInput`. -/
structure CreateLendingPoolInput where
  pool_address : String
  pool_contract_id : String
  reserve_asset : String
  loan_to_value : String
  base_rate : String
  slope1 : String
  slope2 : String
  liquidation_threshold : String
  liquidation_discount : String
  reserve_factor : String
  name : String
  title : String
  description : String
deriving DecidableEq, Repr

/-- `SupplyLiquidityInput`. -/
structure SupplyLiquidityInput where
  wallet : String
  pool : String
  amount : Int
deriving DecidableEq, Repr

/-- `WithdrawLiquidityInput`. -/
structure WithdrawLiquidityInput where
  wallet : String
  pool : String
  amount : Int
deriving DecidableEq, Repr

/-- `BorrowAssetInput`. -/
structure BorrowAssetInput where
  wallet : String
  pool : String
  amount : Int
  collateral : String
deriving DecidableEq, Repr

/-- `RepayBorrowInput`. -/
structure RepayBorrowInput where
  wallet : String
  loan : String
  amount : Int
deriving DecidableEq, Repr

/-- `CreateLoanRepaymentInput`. -/
structure CreateLoanRepaymentInput where
  loan_id : String
  repayment_amount : String
  transaction : Option String
deriving DecidableEq, Repr

/-- `CreateLoanLiquidationInput`. -/
structure CreateLoanLiquidationInput where
  loan_id : String
  liquidator_wallet_id : String
  liquidation_amount : String
  transaction : Option String
deriving DecidableEq, Repr

/-- `MutationAction`: the closed two-level tagged union of state-changing
requests.  Each constructor is one branch `{ Outer: { Inner: payload } }`
of the source union; exactly one outer and one inner tag is populated
per value by construction, matching the source's discriminated-union
discipline. -/
inductive MutationAction where
  | accountsCreateAccount (input : CreateAccountInput)
  | accountsUpdateAccountStatus (input : UpdateAccountStatusInput)
  | accountsCreateWallet (input : CreateWalletInput)
  | assetsCreateAsset (input : CreateAssetInput)
  | assetsCreateExistingAsset (assetId : String)
  | marketsCreateMarket (input : CreateMarketInput)
  | marketsUpdateMarketStatus (input : UpdateMarketStatusInput)
  | orderBookPlaceOrder (input : PlaceOrderInput)
  | orderBookCancelOrder (orderId : String)
  | marketTimeSeriesAddRecord (input : AddTimeSeriesRecordInput)
  | poolCreateLendingPool (input : CreateLendingPoolInput)
  | poolSupplyLiquidity (input : SupplyLiquidityInput)
  | poolWithdrawLiquidity (input : WithdrawLiquidityInput)
  | poolBorrowAsset (input : BorrowAssetInput)
  | poolRepayBorrow (input : RepayBorrowInput)
  | loansCreateRepayment (input : CreateLoanRepaymentInput)
  | loansCreateLiquidation (input : CreateLoanLiquidationInput)
deriving DecidableEq, Repr

/-- The populated outer tag (object key) of a `MutationAction` value. -/
def MutationAction.outerTag : MutationAction → String
  | .accountsCreateAccount _ => "Accounts"
  | .accountsUpdateAccountStatus _ => "Accounts"
  | .accountsCreateWallet _ => "Accounts"
  | .assetsCreateAsset _ => "Assets"
  | .assetsCreateExistingAsset _ => "Assets"
  | .marketsCreateMarket _ => "Markets"
  | .marketsUpdateMarketStatus _ => "Markets"
  | .orderBookPlaceOrder _ => "OrderBook"
  | .orderBookCancelOrder _ => "OrderBook"
  | .marketTimeSeriesAddRecord _ => "MarketTimeSeries"
  | .poolCreateLendingPool _ => "Pool"
  | .poolSupplyLiquidity _ => "Pool"
  | .poolWithdrawLiquidity _ => "Pool"
  | .poolBorrowAsset _ => "Pool"
  | .poolRepayBorrow _ => "Pool"
  | .loansCreateRepayment _ => "Loans"
  | .loansCreateLiquidation _ => "Loans"

/-- The populated inner tag (nested object key) of a `MutationAction`. -/
def MutationAction.innerTag : MutationAction → String
  | .accountsCreateAccount _ => "CreateAccount"
  | .accountsUpdateAccountStatus _ => "UpdateAccountStatus"
  | .accountsCreateWallet _ => "CreateWallet"
  | .assetsCreateAsset _ => "CreateAsset"
  | .assetsCreateExistingAsset _ => "CreateExistingAsset"
  | .marketsCreateMarket _ => "CreateMarket"
  | .marketsUpdateMarketStatus _ => "UpdateMarketStatus"
  | .orderBookPlaceOrder _ => "PlaceOrder"
  | .orderBookCancelOrder _ => "CancelOrder"
  | .marketTimeSeriesAddRecord _ => "AddRecord"
  | .poolCreateLendingPool _ => "CreateLendingPool"
  | .poolSupplyLiquidity _ => "SupplyLiquidity"
  | .poolWithdrawLiquidity _ => "WithdrawLiquidity"
  | .poolBorrowAsset _ => "BorrowAsset"
  | .poolRepayBorrow _ => "RepayBorrow"
  | .loansCreateRepayment _ => "CreateRepayment"
  | .loansCreateLiquidation _ => "CreateLiquidation"

/-- `MutationResponse`: the closed two-level tagged union of mutation
results.  `null` payloads are `Unit`. -/
inductive MutationResponse where
  | accountsCreateAccount (payload : String)
  | accountsUpdateAccountStatus
  | accountsCreateWallet (payload : String)
  | assetsCreateAsset (payload : String)
  | assetsCreateExistingAsset (payload : String)
  | marketsCreateMarket (payload : String)
  | marketsUpdateMarketStatus
  | orderBookPlaceOrder (payload : PlaceOrderResult)
  | orderBookCancelOrder
  | marketTimeSeriesAddRecord (payload : String)
  | poolCreateLendingPool (payload : String)
  | poolSupplyLiquidity (payload : String)
  | poolWithdrawLiquidity (payload : String)
  | poolBorrowAsset (payload : String)
  | poolRepayBorrow
  | loansCreateRepayment (payload : String)
  | loansCreateLiquidation (payload : String)
deriving DecidableEq, Repr

/-- The populated outer tag (object key) of a `MutationResponse`: for a
well-formed response object, `'K' in response` holds exactly for this
key. -/
def MutationResponse.outerTag : MutationResponse → String
  | .accountsCreateAccount _ => "Accounts"
  | .accountsUpdateAccountStatus => "Accounts"
  | .accountsCreateWallet _ => "Accounts"
  | .assetsCreateAsset _ => "Assets"
  | .assetsCreateExistingAsset _ => "Assets"
  | .marketsCreateMarket _ => "Markets"
  | .marketsUpdateMarketStatus => "Markets"
  | .orderBookPlaceOrder _ => "OrderBook"
  | .orderBookCancelOrder => "OrderBook"
  | .marketTimeSeriesAddRecord _ => "MarketTimeSeries"
  | .poolCreateLendingPool _ => "Pool"
  | .poolSupplyLiquidity _ => "Pool"
  | .poolWithdrawLiquidity _ => "Pool"
  | .poolBorrowAsset _ => "Pool"
  | .poolRepayBorrow => "Pool"
  | .loansCreateRepayment _ => "Loans"
  | .loansCreateLiquidation _ => "Loans"

/-- The populated inner tag of a `MutationResponse`: for a well-formed
response, `'K' in response.Outer` holds exactly for this key. -/
def MutationResponse.innerTag : MutationResponse → String
  | .accountsCreateAccount _ => "CreateAccount"
  | .accountsUpdateAccountStatus => "UpdateAccountStatus"
  | .accountsCreateWallet _ => "CreateWallet"
  | .assetsCreateAsset _ => "CreateAsset"
  | .assetsCreateExistingAsset _ => "CreateExistingAsset"
  | .marketsCreateMarket _ => "CreateMarket"
  | .marketsUpdateMarketStatus => "UpdateMarketStatus"
  | .orderBookPlaceOrder _ => "PlaceOrder"
  | .orderBookCancelOrder => "CancelOrder"
  | .marketTimeSeriesAddRecord _ => "AddRecord"
  | .poolCreateLendingPool _ => "CreateLendingPool"
  | .poolSupplyLiquidity _ => "SupplyLiquidity"
  | .poolWithdrawLiquidity _ => "WithdrawLiquidity"
  | .poolBorrowAsset _ => "BorrowAsset"
  | .poolRepayBorrow => "RepayBorrow"
  | .loansCreateRepayment _ => "CreateRepayment"
  | .loansCreateLiquidation _ => "CreateLiquidation"

/-- Key-presence test `'k' in response` on a well-formed response object:
the single populated outer key is `k`. -/
def hasOuterKey (r : MutationResponse) (k : String) : Bool :=
  r.outerTag == k

/-- Key-presence test `'k' in response.Outer` on a well-formed response:
the single populated inner key is `k`. -/
def hasInnerKey (r : MutationResponse) (k : String) : Bool :=
  r.innerTag == k

/-- `MutationResponseHelpers.isCreateAccount` (source lines 559-561). -/
def isCreateAccount (r : MutationResponse) : Bool :=
  hasOuterKey r "Accounts" && hasInnerKey r "CreateAccount"

/-- `MutationResponseHelpers.isUpdateAccountStatus`. -/
def isUpdateAccountStatus (r : MutationResponse) : Bool :=
  hasOuterKey r "Accounts" && hasInnerKey r "UpdateAccountStatus"

/-- `MutationResponseHelpers.isCreateWallet`. -/
def isCreateWallet (r : MutationResponse) : Bool :=
  hasOuterKey r "Accounts" && hasInnerKey r "CreateWallet"

/-- `MutationResponseHelpers.isCreateAsset`. -/
def isCreateAsset (r : MutationResponse) : Bool :=
  hasOuterKey r "Assets" && hasInnerKey r "CreateAsset"

/-- `MutationResponseHelpers.isCreateExistingAsset`. -/
def isCreateExistingAsset (r : MutationResponse) : Bool :=
  hasOuterKey r "Assets" && hasInnerKey r "CreateExistingAsset"

/-- `MutationResponseHelpers.isCreateMarket`. -/
def isCreateMarket (r : MutationResponse) : Bool :=
  hasOuterKey r "Markets" && hasInnerKey r "CreateMarket"

/-- `MutationResponseHelpers.isUpdateMarketStatus`. -/
def isUpdateMarketStatus (r : MutationResponse) : Bool :=
  hasOuterKey r "Markets" && hasInnerKey r "UpdateMarketStatus"

/-- `MutationResponseHelpers.isPlaceOrder`. -/
def isPlaceOrder (r : MutationResponse) : Bool :=
  hasOuterKey r "OrderBook" && hasInnerKey r "PlaceOrder"

/-- `MutationResponseHelpers.isCancelOrder`. -/
def isCancelOrder (r : MutationResponse) : Bool :=
  hasOuterKey r "OrderBook" && hasInnerKey r "CancelOrder"

/-- `MutationResponseHelpers.isAddRecord`. -/
def isAddRecord (r : MutationResponse) : Bool :=
  hasOuterKey r "MarketTimeSeries" && hasInnerKey r "AddRecord"

/-- `MutationResponseHelpers.isCreateLendingPool`. -/
def isCreateLendingPool (r : MutationResponse) : Bool :=
  hasOuterKey r "Pool" && hasInnerKey r "CreateLendingPool"

/-- `MutationResponseHelpers.isSupplyLiquidity`. -/
def isSupplyLiquidity (r : MutationResponse) : Bool :=
  hasOuterKey r "Pool" && hasInnerKey r "SupplyLiquidity"

/-- `MutationResponseHelpers.isWithdrawLiquidity`. -/
def isWithdrawLiquidity (r : MutationResponse) : Bool :=
  hasOuterKey r "Pool" && hasInnerKey r "WithdrawLiquidity"

/-- `MutationResponseHelpers.isBorrowAsset`. -/
def isBorrowAsset (r : MutationResponse) : Bool :=
  hasOuterKey r "Pool" && hasInnerKey r "BorrowAsset"

/-- `MutationResponseHelpers.isRepayBorrow`. -/
def isRepayBorrow (r : MutationResponse) : Bool :=
  hasOuterKey r "Pool" && hasInnerKey r "RepayBorrow"

/-- `MutationResponseHelpers.isCreateRepayment`. -/
def isCreateRepayment (r : MutationResponse) : Bool :=
  hasOuterKey r "Loans" && hasInnerKey r "CreateRepayment"

/-- `MutationResponseHelpers.isCreateLiquidation`. -/
def isCreateLiquidation (r : MutationResponse) : Bool :=
  hasOuterKey r "Loans" && hasInnerKey r "CreateLiquidation"

/-- All seventeen predicates of `MutationResponseHelpers`, each labelled
with the outer/inner tag pair its name refers to. -/
def mutationResponseHelpers : List ((String × String) × (MutationResponse → Bool)) :=
  [ (("Accounts", "CreateAccount"), isCreateAccount),
    (("Accounts", "UpdateAccountStatus"), isUpdateAccountStatus),
    (("Accounts", "CreateWallet"), isCreateWallet),
    (("Assets", "CreateAsset"), isCreateAsset),
    (("Assets", "CreateExistingAsset"), isCreateExistingAsset),
    (("Markets", "CreateMarket"), isCreateMarket),
    (("Markets", "UpdateMarketStatus"), isUpdateMarketStatus),
    (("OrderBook", "PlaceOrder"), isPlaceOrder),
    (("OrderBook", "CancelOrder"), isCancelOrder),
    (("MarketTimeSeries", "AddRecord"), isAddRecord),
    (("Pool", "CreateLendingPool"), isCreateLendingPool),
    (("Pool", "SupplyLiquidity"), isSupplyLiquidity),
    (("Pool", "WithdrawLiquidity"), isWithdrawLiquidity),
    (("Pool", "BorrowAsset"), isBorrowAsset),
    (("Pool", "RepayBorrow"), isRepayBorrow),
    (("Loans", "CreateRepayment"), isCreateRepayment),
    (("Loans", "CreateLiquidation"), isCreateLiquidation) ]

/-- Extraction of the typed `CreateAccount` payload, the runtime content
of the TS narrowing `response.Accounts.CreateAccount` once
`isCreateAccount` returned true. -/
def getCreateAccountPayload : MutationResponse → Option String
  | .accountsCreateAccount payload => some payload
  | _ => none

/-- Endpoint method `getMarkets` (source lines 824-833): builds the path
from the optional filters and delegates to `request` with GET and no
body.  `T` is the wire payload type of the envelope. -/
def getMarkets {T : Type} (tr : CallRecord MutationAction → TransportOutcome T)
    (filters : Option MarketFilters) : ApiResponse T × List (CallRecord MutationAction) :=
  request tr { method := .GET, path := marketsPath filters, body := none }

/-- Endpoint method `getOrders` (source lines 849-861). -/
def getOrders {T : Type} (tr : CallRecord MutationAction → TransportOutcome T)
    (filters : Option OrderFilters) : ApiResponse T × List (CallRecord MutationAction) :=
  request tr { method := .GET, path := ordersPath filters, body := none }

/-- Endpoint method `getTimeSeriesRecords` (source lines 877-890). -/
def getTimeSeriesRecords {T : Type} (tr : CallRecord MutationAction → TransportOutcome T)
    (filters : Option TimeSeriesFilters) : ApiResponse T × List (CallRecord MutationAction) :=
  request tr { method := .GET, path := timeSeriesPath filters, body := none }

/-- Endpoint method `getAccount` (source lines 745-747). -/
def getAccount {T : Type} (tr : CallRecord MutationAction → TransportOutcome T)
    (id : String) : ApiResponse T × List (CallRecord MutationAction) :=
  request tr { method := .GET, path := "/accounts/" ++ id, body := none }

/-- Endpoint method `getAccountWallets` (source lines 759-761): GET on
`/accounts/<accountId>/wallets`, declared in TS to return
`ApiResponse<CradleWallet[]>`.  `T` stands for the wire payload. -/
def getAccountWallets {T : Type} (tr : CallRecord MutationAction → TransportOutcome T)
    (accountId : String) : ApiResponse T × List (CallRecord MutationAction) :=
  request tr { method := .GET, path := "/accounts/" ++ accountId ++ "/wallets", body := none }

/-- Endpoint method `getWalletByAccountId` (source lines 777-779): GET on
`/accounts/<accountId>/wallets`, declared in TS to return
`ApiResponse<CradleWallet>`.  The declared result type is erased at
runtime, so the embedding shares the wire payload type `T`. -/
def getWalletByAccountId {T : Type} (tr : CallRecord MutationAction → TransportOutcome T)
    (accountId : String) : ApiResponse T × List (CallRecord MutationAction) :=
  request tr { method := .GET, path := "/accounts/" ++ accountId ++ "/wallets", body := none }

/-- Mutation dispatch `processMutation` (source lines 1062-1064): POST the
action to `/process`. -/
def processMutation (tr : CallRecord MutationAction → TransportOutcome MutationResponse)
    (action : MutationAction) :
    ApiResponse MutationResponse × List (CallRecord MutationAction) :=
  request tr { method := .POST, path := "/process", body := some action }

/-- Convenience wrapper `createAccount` (source lines 1073-1077): wraps
the input in the `Accounts`/`CreateAccount` tags and dispatches. -/
def createAccount (tr : CallRecord MutationAction → TransportOutcome MutationResponse)
    (input : CreateAccountInput) :
    ApiResponse MutationResponse × List (CallRecord MutationAction) :=
  processMutation tr (.accountsCreateAccount input)

/-- Envelope invariant from the spec: `success = true` iff `data` is
present and `error` is absent. -/
def envelopeInvariant {T : Type} (e : ApiResponse T) : Prop :=
  e.success = true ↔ (e.data.isSome = true ∧ e.error = none)

/-- TS truthiness of an optional string: present and non-empty. -/
def strTruthy : Option String → Bool
  | none => false
  | some s => s != ""

theorem qparam_none (k : String) : qparam k none = [] := rfl

theorem qparam_some {s : String} (k : String) (h : s ≠ "") :
    qparam k (some s) = [(k, s)] := by
  simp [qparam, h]

theorem qparam_keys (k : String) (v : Option String) :
    (qparam k v).map Prod.fst = if strTruthy v then [k] else [] := by
  cases v with
  | none => rfl
  | some s =>
      by_cases h : s = "" <;> simp [qparam, strTruthy, h]

theorem qparam_keys_sub (k : String) (v : Option String) :
    List.Sublist ((qparam k v).map Prod.fst) [k] := by
  rw [qparam_keys]
  split
  · exact List.Sublist.refl _
  · exact List.nil_sublist _

theorem key_of_qparam {x k : String} {v : Option String}
    (h : x ∈ (qparam k v).map Prod.fst) : x = k := by
  rw [qparam_keys] at h
  split at h <;> simp_all

theorem mem_qparam_self {s : String} (k : String) (h : s ≠ "") :
    (k, s) ∈ qparam k (some s) := by
  simp [qparam, h]

theorem joinAmp_cons (x : String) (y : String) (rest : List String) :
    joinAmp (x :: y :: rest) = x ++ "&" ++ joinAmp (y :: rest) := rfl

/-- Every appended pair shows up in the serialized query string as the
contiguous segment `encode(name)=encode(value)`. -/
theorem pair_in_queryString {k v : String} {ps : List (String × String)}
    (h : (k, v) ∈ ps) :
    ∃ pre post, queryString ps =
      pre ++ (urlencode k ++ "=" ++ urlencode v) ++ post := by
  induction ps with
  | nil => cases h
  | cons p rest ih =>
      rcases List.mem_cons.mp h with hp | hp
      · subst hp
        cases rest with
        | nil =>
            refine ⟨"", "", ?_⟩
            simp [queryString, joinAmp, String.empty_append, String.append_empty]
        | cons q qs =>
            refine ⟨"", "&" ++ joinAmp ((q :: qs).map
              (fun p => urlencode p.1 ++ "=" ++ urlencode p.2)), ?_⟩
            simp only [queryString, List.map_cons, joinAmp_cons,
              String.empty_append, String.append_assoc]
      · obtain ⟨pre, post, hq⟩ := ih hp
        cases rest with
        | nil => cases hp
        | cons q qs =>
            refine ⟨urlencode p.1 ++ "=" ++ urlencode p.2 ++ "&" ++ pre, post, ?_⟩
            have hqs : queryString (p :: q :: qs) =
                urlencode p.1 ++ "=" ++ urlencode p.2 ++ "&" ++ queryString (q :: qs) := by
              simp [queryString, joinAmp_cons, String.append_assoc]
            rw [hqs, hq]
            simp [String.append_assoc]

theorem mem_append_keys {x : String} {l1 l2 : List (String × String)} :
    x ∈ (l1 ++ l2).map Prod.fst ↔ x ∈ l1.map Prod.fst ∨ x ∈ l2.map Prod.fst := by
  simp [List.map_append]

theorem MarketType.wire_ne_mt (t : MarketType) : t.wire ≠ "" := by
  cases t <;> decide

theorem MarketStatus.wire_ne_ms (t : MarketStatus) : t.wire ≠ "" := by
  cases t <;> decide

theorem MarketRegulation.wire_ne_mr (t : MarketRegulation) : t.wire ≠ "" := by
  cases t <;> decide

theorem OrderStatus.wire_ne_os (t : OrderStatus) : t.wire ≠ "" := by
  cases t <;> decide

theorem OrderType.wire_ne_ot (t : OrderType) : t.wire ≠ "" := by
  cases t <;> decide

theorem TimeSeriesInterval.wire_ne_ti (t : TimeSeriesInterval) : t.wire ≠ "" := by
  cases t <;> decide

/-- The keys `getMarkets` can emit, in their fixed source order. -/
theorem marketsParams_keys_sub (filters : Option MarketFilters) :
    List.Sublist ((marketsParams filters).map Prod.fst)
      ["market_type", "status", "regulation"] := by
  unfold marketsParams
  rw [List.map_append, List.map_append]
  exact ((qparam_keys_sub _ _).append (qparam_keys_sub _ _)).append (qparam_keys_sub _ _)

/-- The keys `getOrders` can emit, in their fixed source order. -/
theorem ordersParams_keys_sub (filters : Option OrderFilters) :
    List.Sublist ((ordersParams filters).map Prod.fst)
      ["wallet", "market_id", "status", "order_type", "from_date", "to_date"] := by
  unfold ordersParams
  rw [List.map_append, List.map_append, List.map_append, List.map_append, List.map_append]
  exact (((((qparam_keys_sub _ _).append (qparam_keys_sub _ _)).append
    (qparam_keys_sub _ _)).append (qparam_keys_sub _ _)).append
    (qparam_keys_sub _ _)).append (qparam_keys_sub _ _)

/-- The keys of the `duration_sec` segment of `timeSeriesParams`. -/
theorem durationSegment_keys_sub (v : Option String) :
    List.Sublist ((durationSegment v).map Prod.fst) ["duration_sec"] := by
  cases v with
  | none => exact List.nil_sublist _
  | some s =>
      by_cases h : s = "" <;> simp [durationSegment, h]

/-- The keys `getTimeSeriesRecords` can emit, in their fixed source
order; note the renamed `market` key and the synthetic `duration_sec`. -/
theorem timeSeriesParams_keys_sub (filters : Option TimeSeriesFilters) :
    List.Sublist ((timeSeriesParams filters).map Prod.fst)
      ["market", "asset", "interval", "duration_sec", "data_provider"] := by
  unfold timeSeriesParams
  rw [List.map_append, List.map_append, List.map_append, List.map_append]
  exact ((((qparam_keys_sub _ _).append (qparam_keys_sub _ _)).append
    (qparam_keys_sub _ _)).append (durationSegment_keys_sub _)).append
    (qparam_keys_sub _ _)

/-- A concrete GET call used by witnesses and counterexamples. -/
def sampleCall : CallRecord MutationAction :=
  { method := .GET, path := "/accounts/a", body := none }

/-- C1: for every call through the adapter whose HTTP layer fails at the
transport level with no usable response body (axios rejection carrying
no `response.data`), `request` does not propagate the exception: it
returns the envelope with `success = false`, `data = null` and the
error string taken from the underlying failure message, or the fallback
`Request failed` when that message is empty; the error string is always
non-empty.  The one issued call is recorded, so nothing is thrown to
the typed endpoint methods, which all return this envelope unchanged. -/
theorem request_transport_failure_envelope {B T : Type}
    (tr : CallRecord B → TransportOutcome T) (c : CallRecord B) (message : String)
    (h : tr c = .caught (.axiosErr none message)) :
    request tr c =
      ({ success := false, data := none,
         error := some (if message = "" then "Request failed" else message) }, [c]) ∧
    (if message = "" then "Request failed" else message) ≠ "" := by
  constructor
  · simp [request, h, handleCaught]
  · split
    · decide
    · assumption

/-- Witness for C1: a concrete timed-out call. -/
theorem request_transport_failure_envelope_witness :
    request (fun _ : CallRecord MutationAction =>
        (TransportOutcome.caught (CaughtError.axiosErr none "timeout of 30000ms exceeded") :
          TransportOutcome MutationResponse)) sampleCall =
      ({ success := false, data := none, error := some "timeout of 30000ms exceeded" },
        [sampleCall]) ∧
    "timeout of 30000ms exceeded" ≠ "" := by
  obtain ⟨h1, h2⟩ := request_transport_failure_envelope
    (fun _ : CallRecord MutationAction =>
      (TransportOutcome.caught (CaughtError.axiosErr none "timeout of 30000ms exceeded") :
        TransportOutcome MutationResponse))
    sampleCall "timeout of 30000ms exceeded" rfl
  rw [if_neg (by decide : ¬("timeout of 30000ms exceeded" = ""))] at h1 h2
  exact ⟨h1, h2⟩

/-- A backend body violating the envelope invariant: `success: true`
with `data: null` and an error message. -/
def glitchEnvelope : ApiResponse MutationResponse :=
  { success := true, data := none, error := some "backend glitch" }

/-- A transport whose HTTP call completes and parses to
`glitchEnvelope`. -/
def glitchTransport : CallRecord MutationAction → TransportOutcome MutationResponse :=
  fun _ => .ok glitchEnvelope

/-- C2 counterexample: on a successful transport call the adapter
returns the backend body verbatim, so a body with `success = true`,
`data = null` and an error present comes back exactly as sent and the
claimed invariant `success = true` iff (`data` present and `error`
absent) fails on the returned envelope: the adapter does not enforce
it for successful transport calls. -/
theorem request_invariant_not_enforced :
    (request glitchTransport sampleCall).1 = glitchEnvelope ∧
    (request glitchTransport sampleCall).1.success = true ∧
    (request glitchTransport sampleCall).1.data = none ∧
    ¬ envelopeInvariant (request glitchTransport sampleCall).1 := by
  refine ⟨rfl, rfl, rfl, ?_⟩
  intro hinv
  have h := hinv.mp rfl
  simpa [request, glitchTransport, glitchEnvelope] using h.1

/-- C2 amended: the invariant `success = true` iff (`data` present and
`error` absent) holds for every envelope the adapter itself synthesizes,
namely on transport failures with no usable response body; when the
call completes with a body — directly, or attached to an axios error —
that body is returned verbatim, so there the invariant holds only if
the backend body already satisfies it. -/
theorem request_invariant_synthesized_only {B T : Type}
    (tr : CallRecord B → TransportOutcome T) (c : CallRecord B) :
    (∀ message, tr c = .caught (.axiosErr none message) →
      envelopeInvariant (request tr c).1) ∧
    (∀ message, tr c = .caught (.jsErr message) →
      envelopeInvariant (request tr c).1) ∧
    (tr c = .caught .unknownThrown → envelopeInvariant (request tr c).1) ∧
    (∀ body, tr c = .ok body → (request tr c).1 = body) ∧
    (∀ d message, tr c = .caught (.axiosErr (some d) message) →
      (request tr c).1 = d) := by
  refine ⟨?_, ?_, ?_, ?_, ?_⟩
  · intro message h
    simp [request, h, handleCaught, envelopeInvariant]
  · intro message h
    simp [request, h, handleCaught, envelopeInvariant]
  · intro h
    simp [request, h, handleCaught, envelopeInvariant]
  · intro body h
    simp [request, h]
  · intro d message h
    simp [request, h, handleCaught]

/-- Witness for the amended C2: a synthesized envelope from a plain
thrown `Error` satisfies the invariant. -/
theorem request_invariant_synthesized_only_witness :
    envelopeInvariant (request (fun _ : CallRecord MutationAction =>
      (TransportOutcome.caught (CaughtError.jsErr "boom") :
        TransportOutcome MutationResponse)) sampleCall).1 :=
  (request_invariant_synthesized_only
    (fun _ : CallRecord MutationAction =>
      (TransportOutcome.caught (CaughtError.jsErr "boom") :
        TransportOutcome MutationResponse)) sampleCall).2.1 "boom" rfl

/-- C3: when the HTTP call completes with some status and an
envelope-shaped body, `request` returns that body verbatim: directly
when the promise resolves, and from `error.response.data` when axios
rejects because of a failure HTTP status; no field of the envelope is
modified, re-wrapped, or reinterpreted. -/
theorem request_completed_body_verbatim {B T : Type}
    (tr : CallRecord B → TransportOutcome T) (c : CallRecord B) :
    (∀ body, tr c = .ok body → request tr c = (body, [c])) ∧
    (∀ body message, tr c = .caught (.axiosErr (some body) message) →
      request tr c = (body, [c])) := by
  constructor
  · intro body h
    simp [request, h]
  · intro body message h
    simp [request, h, handleCaught]

/-- A backend failure envelope as delivered inside an axios error for a
404 status. -/
def notFoundBody : ApiResponse MutationResponse :=
  { success := false, data := none, error := some "Account not found" }

/-- Witness for C3: a 404 rejection carrying a backend envelope is
returned verbatim. -/
theorem request_completed_body_verbatim_witness :
    request (fun _ : CallRecord MutationAction =>
      (TransportOutcome.caught
        (CaughtError.axiosErr (some notFoundBody) "Request failed with status code 404") :
        TransportOutcome MutationResponse)) sampleCall = (notFoundBody, [sampleCall]) :=
  (request_completed_body_verbatim
    (fun _ : CallRecord MutationAction =>
      (TransportOutcome.caught
        (CaughtError.axiosErr (some notFoundBody) "Request failed with status code 404") :
        TransportOutcome MutationResponse)) sampleCall).2
    notFoundBody "Request failed with status code 404" rfl

/-- C4: `health()` bypasses the normalization of the adapter: it is a
raw unauthenticated GET on `<baseUrl>/health` (plain axios, no bearer
header), it returns the `{status, timestamp}` body directly on success,
and on any transport failure it throws (`Except.error`) instead of
returning a success/data/error envelope. -/
theorem health_raw_unauthenticated (baseUrl : String) (body : HealthResponse) :
    healthCall baseUrl =
      { method := .GET, url := baseUrl ++ "/health", hasAuthHeader := false } ∧
    health (.ok body) = .ok body ∧
    health .failed = .error "Health check failed" :=
  ⟨rfl, rfl, rfl⟩

/-- C7: `createAccount(input)` issues exactly one POST to `/process`
whose body is the action with the single outer tag `Accounts` and the
single inner tag `CreateAccount` wrapping the input unmodified, and
returns the resulting envelope untouched; at the concrete input
`linked_account_id = user-1, account_type = retail` the recorded body
is exactly that nested value. -/
theorem createAccount_single_post_process
    (tr : CallRecord MutationAction → TransportOutcome MutationResponse)
    (input : CreateAccountInput) :
    createAccount tr input =
      request tr { method := .POST, path := "/process",
                   body := some (.accountsCreateAccount input) } ∧
    (createAccount tr input).2 =
      [{ method := .POST, path := "/process",
         body := some (.accountsCreateAccount input) }] ∧
    (MutationAction.accountsCreateAccount input).outerTag = "Accounts" ∧
    (MutationAction.accountsCreateAccount input).innerTag = "CreateAccount" ∧
    (∀ env, tr { method := .POST, path := "/process",
                 body := some (.accountsCreateAccount input) } = .ok env →
      (createAccount tr input).1 = env) ∧
    (createAccount tr { linked_account_id := "user-1", account_type := .retail }).2 =
      [{ method := .POST, path := "/process",
         body := some (.accountsCreateAccount
           { linked_account_id := "user-1", account_type := .retail }) }] := by
  refine ⟨rfl, rfl, rfl, rfl, ?_, rfl⟩
  intro env h
  simp [createAccount, processMutation, request, h]

/-- Witness for C7: a concrete backend success envelope is returned
untouched by `createAccount`. -/
theorem createAccount_single_post_process_witness :
    (createAccount (fun _ : CallRecord MutationAction =>
        (TransportOutcome.ok
          { success := true, data := some (.accountsCreateAccount "acc-123"),
            error := none } : TransportOutcome MutationResponse))
      { linked_account_id := "user-1", account_type := .retail }).1 =
      { success := true, data := some (.accountsCreateAccount "acc-123"), error := none } :=
  (createAccount_single_post_process
    (fun _ : CallRecord MutationAction =>
      (TransportOutcome.ok
        { success := true, data := some (.accountsCreateAccount "acc-123"),
          error := none } : TransportOutcome MutationResponse))
    { linked_account_id := "user-1", account_type := .retail }).2.2.2.2.1
    { success := true, data := some (.accountsCreateAccount "acc-123"), error := none } rfl

/-- C8: on every well-formed `MutationResponse` (the closed union keeps
exactly one outer and one inner tag populated), exactly one of the
seventeen `MutationResponseHelpers` predicates is true, namely the one
labelled with the populated outer/inner tag pair; its typed payload is
reachable (shown for `CreateAccount` via `getCreateAccountPayload`),
and every other predicate is false. -/
theorem mutation_helpers_exactly_one (r : MutationResponse) :
    (mutationResponseHelpers.filter (fun h => h.2 r)).map Prod.fst =
      [(r.outerTag, r.innerTag)] ∧
    mutationResponseHelpers.countP (fun h => h.2 r) = 1 ∧
    (∀ s, isCreateAccount (.accountsCreateAccount s) = true ∧
      getCreateAccountPayload (.accountsCreateAccount s) = some s) ∧
    (∀ pr, pr ∈ mutationResponseHelpers →
      (pr.2 r = true ↔ pr.1 = (r.outerTag, r.innerTag))) := by
  refine ⟨?_, ?_, ?_, ?_⟩
  · cases r <;> rfl
  · cases r <;> rfl
  · intro s
    exact ⟨rfl, rfl⟩
  · intro pr hpr
    fin_cases hpr <;> cases r <;>
      simp [isCreateAccount, isUpdateAccountStatus, isCreateWallet, isCreateAsset,
        isCreateExistingAsset, isCreateMarket, isUpdateMarketStatus, isPlaceOrder,
        isCancelOrder, isAddRecord, isCreateLendingPool, isSupplyLiquidity,
        isWithdrawLiquidity, isBorrowAsset, isRepayBorrow, isCreateRepayment,
        isCreateLiquidation, hasOuterKey, hasInnerKey,
        MutationResponse.outerTag, MutationResponse.innerTag]

/-- Witness for C8: the `CreateAccount` predicate on a `CancelOrder`
response is false, in the form of the matching-tags iff. -/
theorem mutation_helpers_exactly_one_witness :
    isCreateAccount .orderBookCancelOrder = true ↔
      (("Accounts", "CreateAccount") : String × String) =
        (MutationResponse.orderBookCancelOrder.outerTag,
          MutationResponse.orderBookCancelOrder.innerTag) :=
  (mutation_helpers_exactly_one .orderBookCancelOrder).2.2.2
    (("Accounts", "CreateAccount"), isCreateAccount)
    (by unfold mutationResponseHelpers; exact List.mem_cons_self _ _)

/-- C9: `getAccountWallets` and `getWalletByAccountId` issue
observationally identical requests for every account id: the same GET
on `/accounts/<accountId>/wallets`, differing only in the statically
declared (erased) result type. -/
theorem account_wallets_same_request {T : Type}
    (tr : CallRecord MutationAction → TransportOutcome T) (accountId : String) :
    getAccountWallets tr accountId = getWalletByAccountId tr accountId ∧
    (getAccountWallets tr accountId).2 =
      [{ method := .GET, path := "/accounts/" ++ accountId ++ "/wallets",
         body := none }] :=
  ⟨rfl, rfl⟩

/-- C10: the constructor substitutes defaults on any falsy configuration
value, not only on absence: an empty `baseUrl` yields
`http://localhost:3000`, a zero `timeout` yields `30000`, and no
configuration can produce an empty resolved base URL or a zero resolved
timeout. -/
theorem constructor_defaults_on_falsy :
    resolvedBaseUrl { baseUrl := some "", apiKey := "k", timeout := some 30000 } =
      "http://localhost:3000" ∧
    resolvedTimeout
      { baseUrl := some "http://api.example.com", apiKey := "k", timeout := some 0 } =
      30000 ∧
    (∀ config : CradleApiConfig,
      resolvedBaseUrl config ≠ "" ∧ resolvedTimeout config ≠ 0) := by
  refine ⟨rfl, rfl, ?_⟩
  intro config
  obtain ⟨b, k, t⟩ := config
  constructor
  · cases b with
    | none => simp [resolvedBaseUrl]
    | some s =>
        by_cases h : s = ""
        · simp [resolvedBaseUrl, h]
        · simpa [resolvedBaseUrl, h] using h
  · cases t with
    | none => simp [resolvedTimeout]
    | some n =>
        by_cases h : n = 0
        · simp [resolvedTimeout, h]
        · simpa [resolvedTimeout, h] using h

theorem mem_ite_singleton {x k : String} {b : Bool} :
    x ∈ (if b then [k] else ([] : List String)) ↔ (x = k ∧ b = true) := by
  cases b <;> simp

theorem strTruthy_wire_mt (v : Option MarketType) :
    strTruthy (v.map MarketType.wire) = v.isSome := by
  cases v with
  | none => rfl
  | some t => cases t <;> decide

theorem strTruthy_wire_ms (v : Option MarketStatus) :
    strTruthy (v.map MarketStatus.wire) = v.isSome := by
  cases v with
  | none => rfl
  | some t => cases t <;> decide

theorem strTruthy_wire_mr (v : Option MarketRegulation) :
    strTruthy (v.map MarketRegulation.wire) = v.isSome := by
  cases v with
  | none => rfl
  | some t => cases t <;> decide

theorem strTruthy_wire_os (v : Option OrderStatus) :
    strTruthy (v.map OrderStatus.wire) = v.isSome := by
  cases v with
  | none => rfl
  | some t => cases t <;> decide

theorem strTruthy_wire_ot (v : Option OrderType) :
    strTruthy (v.map OrderType.wire) = v.isSome := by
  cases v with
  | none => rfl
  | some t => cases t <;> decide

theorem strTruthy_wire_ti (v : Option TimeSeriesInterval) :
    strTruthy (v.map TimeSeriesInterval.wire) = v.isSome := by
  cases v with
  | none => rfl
  | some t => cases t <;> decide

theorem durationSegment_keys (v : Option String) :
    (durationSegment v).map Prod.fst =
      if strTruthy v then ["duration_sec"] else [] := by
  cases v with
  | none => rfl
  | some s => by_cases h : s = "" <;> simp [durationSegment, strTruthy, h]

/-- Which keys appear for `getMarkets`: each exactly when its field is
present. -/
theorem marketsParams_key_iff (mf : MarketFilters) (x : String) :
    x ∈ (marketsParams (some mf)).map Prod.fst ↔
      ((x = "market_type" ∧ mf.market_type.isSome = true) ∨
       (x = "status" ∧ mf.status.isSome = true) ∨
       (x = "regulation" ∧ mf.regulation.isSome = true)) := by
  simp only [marketsParams, Option.some_bind, List.map_append, List.mem_append,
    qparam_keys, strTruthy_wire_mt, strTruthy_wire_ms, strTruthy_wire_mr,
    mem_ite_singleton]
  tauto

/-- Which keys appear for `getOrders`: each exactly when its field is
present (and, for free-string fields, non-empty). -/
theorem ordersParams_key_iff (of : OrderFilters) (x : String) :
    x ∈ (ordersParams (some of)).map Prod.fst ↔
      ((x = "wallet" ∧ strTruthy of.wallet = true) ∨
       (x = "market_id" ∧ strTruthy of.market_id = true) ∨
       (x = "status" ∧ of.status.isSome = true) ∨
       (x = "order_type" ∧ of.order_type.isSome = true) ∨
       (x = "from_date" ∧ strTruthy of.from_date = true) ∨
       (x = "to_date" ∧ strTruthy of.to_date = true)) := by
  simp only [ordersParams, Option.some_bind, List.map_append, List.mem_append,
    qparam_keys, strTruthy_wire_os, strTruthy_wire_ot, mem_ite_singleton]
  tauto

/-- Which keys appear for `getTimeSeriesRecords`: note `market` (not
`market_id`) and `duration_sec` (not `start_time`); `end_time` drives
nothing. -/
theorem timeSeriesParams_key_iff (tf : TimeSeriesFilters) (x : String) :
    x ∈ (timeSeriesParams (some tf)).map Prod.fst ↔
      ((x = "market" ∧ strTruthy tf.market_id = true) ∨
       (x = "asset" ∧ strTruthy tf.asset = true) ∨
       (x = "interval" ∧ tf.interval.isSome = true) ∨
       (x = "duration_sec" ∧ strTruthy tf.start_time = true) ∨
       (x = "data_provider" ∧ strTruthy tf.data_provider = true)) := by
  simp only [timeSeriesParams, Option.some_bind, List.map_append, List.mem_append,
    qparam_keys, strTruthy_wire_ti, durationSegment_keys, mem_ite_singleton]
  tauto

/-- C5 counterexample: with the filter `market_id = m1` present (and
nothing else), `getTimeSeriesRecords` sends the value under the key
`market`, not under the declared field name `market_id`: the
exact-declared-key-name part of the claim fails for the time-series
listing method. -/
theorem timeSeries_declared_key_renamed :
    timeSeriesParams (some { market_id := some "m1" }) = [("market", "m1")] ∧
    "market_id" ∉ (timeSeriesParams (some { market_id := some "m1" })).map Prod.fst ∧
    timeSeriesPath (some { market_id := some "m1" }) = "/time-series?market=m1" := by
  refine ⟨by decide, by decide, by decide⟩

/-- C5 amended: for `getMarkets` and `getOrders` the claim holds as
stated — omitted fields never appear in the query string, present
(truthy) fields appear under their exact declared key with their value
(URL-encoded on serialization), and the key order is the fixed
enumerated source order.  For `getTimeSeriesRecords` the omission and
fixed-order parts hold, but the declared key names do not: `market_id`
is sent under the key `market`, a set `start_time` only yields a
`duration_sec` key with empty value, and `end_time` is never sent and
drives nothing. -/
theorem filter_query_construction (mf : MarketFilters) (of : OrderFilters)
    (tf : TimeSeriesFilters) :
    (mf.market_type = none → "market_type" ∉ (marketsParams (some mf)).map Prod.fst) ∧
    (mf.status = none → "status" ∉ (marketsParams (some mf)).map Prod.fst) ∧
    (mf.regulation = none → "regulation" ∉ (marketsParams (some mf)).map Prod.fst) ∧
    (∀ x, mf.market_type = some x → ("market_type", x.wire) ∈ marketsParams (some mf)) ∧
    (∀ x, mf.status = some x → ("status", x.wire) ∈ marketsParams (some mf)) ∧
    (∀ x, mf.regulation = some x → ("regulation", x.wire) ∈ marketsParams (some mf)) ∧
    List.Sublist ((marketsParams (some mf)).map Prod.fst)
      ["market_type", "status", "regulation"] ∧
    (of.wallet = none → "wallet" ∉ (ordersParams (some of)).map Prod.fst) ∧
    (of.market_id = none → "market_id" ∉ (ordersParams (some of)).map Prod.fst) ∧
    (of.status = none → "status" ∉ (ordersParams (some of)).map Prod.fst) ∧
    (of.order_type = none → "order_type" ∉ (ordersParams (some of)).map Prod.fst) ∧
    (of.from_date = none → "from_date" ∉ (ordersParams (some of)).map Prod.fst) ∧
    (of.to_date = none → "to_date" ∉ (ordersParams (some of)).map Prod.fst) ∧
    (∀ s, of.wallet = some s → s ≠ "" → ("wallet", s) ∈ ordersParams (some of)) ∧
    (∀ s, of.market_id = some s → s ≠ "" → ("market_id", s) ∈ ordersParams (some of)) ∧
    (∀ x, of.status = some x → ("status", x.wire) ∈ ordersParams (some of)) ∧
    (∀ x, of.order_type = some x → ("order_type", x.wire) ∈ ordersParams (some of)) ∧
    (∀ s, of.from_date = some s → s ≠ "" → ("from_date", s) ∈ ordersParams (some of)) ∧
    (∀ s, of.to_date = some s → s ≠ "" → ("to_date", s) ∈ ordersParams (some of)) ∧
    List.Sublist ((ordersParams (some of)).map Prod.fst)
      ["wallet", "market_id", "status", "order_type", "from_date", "to_date"] ∧
    (∀ k v, (k, v) ∈ ordersParams (some of) → ∃ pre post,
      queryString (ordersParams (some of)) =
        pre ++ (urlencode k ++ "=" ++ urlencode v) ++ post) ∧
    ("market_id" ∉ (timeSeriesParams (some tf)).map Prod.fst) ∧
    ("start_time" ∉ (timeSeriesParams (some tf)).map Prod.fst) ∧
    ("end_time" ∉ (timeSeriesParams (some tf)).map Prod.fst) ∧
    (∀ s, tf.market_id = some s → s ≠ "" → ("market", s) ∈ timeSeriesParams (some tf)) ∧
    (∀ s, tf.start_time = some s → s ≠ "" →
      ("duration_sec", "") ∈ timeSeriesParams (some tf)) ∧
    (∀ e, timeSeriesParams (some { tf with end_time := e }) =
      timeSeriesParams (some { tf with end_time := none })) ∧
    List.Sublist ((timeSeriesParams (some tf)).map Prod.fst)
      ["market", "asset", "interval", "duration_sec", "data_provider"] := by
  refine ⟨?_, ?_, ?_, ?_, ?_, ?_, marketsParams_keys_sub _,
    ?_, ?_, ?_, ?_, ?_, ?_, ?_, ?_, ?_, ?_, ?_, ?_, ordersParams_keys_sub _,
    ?_, ?_, ?_, ?_, ?_, ?_, ?_, timeSeriesParams_keys_sub _⟩
  · intro h hmem
    have hx := (marketsParams_key_iff _ _).mp hmem
    simp [h] at hx
  · intro h hmem
    have hx := (marketsParams_key_iff _ _).mp hmem
    simp [h] at hx
  · intro h hmem
    have hx := (marketsParams_key_iff _ _).mp hmem
    simp [h] at hx
  · intro x hx
    simp [marketsParams, hx, qparam, MarketType.wire_ne_mt]
  · intro x hx
    simp [marketsParams, hx, qparam, MarketStatus.wire_ne_ms]
  · intro x hx
    simp [marketsParams, hx, qparam, MarketRegulation.wire_ne_mr]
  · intro h hmem
    have hx := (ordersParams_key_iff _ _).mp hmem
    simp [h, strTruthy] at hx
  · intro h hmem
    have hx := (ordersParams_key_iff _ _).mp hmem
    simp [h, strTruthy] at hx
  · intro h hmem
    have hx := (ordersParams_key_iff _ _).mp hmem
    simp [h] at hx
  · intro h hmem
    have hx := (ordersParams_key_iff _ _).mp hmem
    simp [h] at hx
  · intro h hmem
    have hx := (ordersParams_key_iff _ _).mp hmem
    simp [h, strTruthy] at hx
  · intro h hmem
    have hx := (ordersParams_key_iff _ _).mp hmem
    simp [h, strTruthy] at hx
  · intro s hs hne
    simp [ordersParams, hs, hne, qparam]
  · intro s hs hne
    simp [ordersParams, hs, hne, qparam]
  · intro x hx
    simp [ordersParams, hx, qparam, OrderStatus.wire_ne_os]
  · intro x hx
    simp [ordersParams, hx, qparam, OrderType.wire_ne_ot]
  · intro s hs hne
    simp [ordersParams, hs, hne, qparam]
  · intro s hs hne
    simp [ordersParams, hs, hne, qparam]
  · intro k v hkv
    exact pair_in_queryString hkv
  · intro hmem
    have hx := (timeSeriesParams_key_iff _ _).mp hmem
    simp at hx
  · intro hmem
    have hx := (timeSeriesParams_key_iff _ _).mp hmem
    simp at hx
  · intro hmem
    have hx := (timeSeriesParams_key_iff _ _).mp hmem
    simp at hx
  · intro s hs hne
    simp [timeSeriesParams, hs, hne, qparam]
  · intro s hs hne
    simp [timeSeriesParams, durationSegment, hs, hne, qparam]
  · intro e
    rfl

/-- Witness for the amended C5: the spec scenario
`getMarkets(market_type e spot, status e active)` emits both pairs and
the exact query string `/markets?market_type=spot&status=active`, and a
present `wallet` filter reaches the orders query. -/
theorem filter_query_construction_witness :
    ("market_type", MarketType.spot.wire) ∈
      marketsParams (some { market_type := some .spot, status := some .active }) ∧
    ("wallet", "w-1") ∈ ordersParams (some { wallet := some "w-1" }) ∧
    marketsPath (some { market_type := some .spot, status := some .active }) =
      "/markets?market_type=spot&status=active" := by
  refine ⟨?_, ?_, by decide⟩
  · exact (filter_query_construction
      { market_type := some .spot, status := some .active } {} {}).2.2.2.1 .spot rfl
  · exact (filter_query_construction {} { wallet := some "w-1" }
      {}).2.2.2.2.2.2.2.2.2.2.2.2.2.1 "w-1" rfl (by decide)

/-- C6: for every filter value, `getTimeSeriesRecords` never sends the
keys `start_time` or `end_time`; whenever `start_time` is set (truthy
under the TS guard, i.e. a non-empty string) it appends a
`duration_sec` key with an empty value; and a set `market_id` is sent
under the key `market`. -/
theorem timeSeries_duration_sec_quirk (tf : TimeSeriesFilters) :
    "start_time" ∉ (timeSeriesParams (some tf)).map Prod.fst ∧
    "end_time" ∉ (timeSeriesParams (some tf)).map Prod.fst ∧
    (∀ s, tf.start_time = some s → s ≠ "" →
      ("duration_sec", "") ∈ timeSeriesParams (some tf)) ∧
    (∀ s, tf.market_id = some s → s ≠ "" →
      ("market", s) ∈ timeSeriesParams (some tf)) := by
  refine ⟨?_, ?_, ?_, ?_⟩
  · intro hmem
    have hx := (timeSeriesParams_key_iff _ _).mp hmem
    simp at hx
  · intro hmem
    have hx := (timeSeriesParams_key_iff _ _).mp hmem
    simp at hx
  · intro s hs hne
    simp [timeSeriesParams, durationSegment, hs, hne, qparam]
  · intro s hs hne
    simp [timeSeriesParams, hs, hne, qparam]

/-- Witness for C6: with `market_id = m1` and `start_time` a concrete
timestamp, both the `duration_sec` pair (empty value) and the renamed
`market` pair are emitted. -/
theorem timeSeries_duration_sec_quirk_witness :
    ("duration_sec", "") ∈ timeSeriesParams
      (some { market_id := some "m1", start_time := some "2024-01-01" }) ∧
    ("market", "m1") ∈ timeSeriesParams
      (some { market_id := some "m1", start_time := some "2024-01-01" }) :=
  ⟨(timeSeries_duration_sec_quirk
      { market_id := some "m1", start_time := some "2024-01-01" }).2.2.1
      "2024-01-01" rfl (by decide),
    (timeSeries_duration_sec_quirk
      { market_id := some "m1", start_time := some "2024-01-01" }).2.2.2
      "m1" rfl (by decide)⟩
